import Mathlib

/-!
Shallow embedding of `api/notify_late.py` and `api/ping.py` from the
slack-dm-sender repository, together with theorems checking the
natural-language specification against the code.

Modelling conventions:
* JSON values are the inductive `Json`; Python `None` and JSON `null`
  coincide (as they do after `json.loads` / `dict.get`).
* Python exceptions that would escape the handler are `Except.error`
  values of type `PyErr`.
* The upstream messaging API is an oracle `Nat → TransportResult`
  giving the transport outcome of each successive call.
-/

namespace SlackDM

/-- JSON values as produced by `json.loads`. Numbers are modelled as
integers (no claim depends on float semantics). An object is the parsed
`dict`; for a duplicated key the later pair wins, as in `json.loads`. -/
inductive Json where
  | null
  | bool (b : Bool)
  | num (n : Int)
  | str (s : String)
  | arr (elems : List Json)
  | obj (fields : List (String × Json))

/-- Python exceptions that the handler code can raise and does not catch. -/
inductive PyErr where
  | typeError
  | attributeError
  | keyError (key : String)
deriving DecidableEq

/-- Lookup in a parsed-`dict` association list where a later duplicate key
overwrites an earlier one, as `json.loads` does. -/
def lastLookup {β : Type} : List (String × β) → String → Option β
  | [], _ => none
  | (k, v) :: rest, key =>
      match lastLookup rest key with
      | some w => some w
      | none => if key = k then some v else none

/-- Python truthiness `bool(x)` of a JSON value. -/
def Json.truthy : Json → Bool
  | .null => false
  | .bool b => b
  | .num n => decide (n ≠ 0)
  | .str s => decide (s ≠ "")
  | .arr elems => !elems.isEmpty
  | .obj fields => !fields.isEmpty

/-- Whether the value is a JSON object (a Python `dict`). -/
def Json.isObj : Json → Bool
  | .obj _ => true
  | _ => false

/-- Python `isinstance(x, str)`. -/
def Json.isStr : Json → Bool
  | .str _ => true
  | _ => false

/-- Total field read: the value under `key` when the receiver is an object
holding that key, `null` otherwise. Used to state properties. -/
def jGet (j : Json) (key : String) : Json :=
  match j with
  | .obj fields => (lastLookup fields key).getD .null
  | _ => .null

/-- Whether the receiver is an object holding `key`. -/
def hasKey (j : Json) (key : String) : Bool :=
  match j with
  | .obj fields => (lastLookup fields key).isSome
  | _ => false

/-- Python `d.get(key)`: the stored value (`null` for a missing key, the
same as a stored `None`) when the receiver is a dict, `AttributeError`
otherwise. -/
def Json.pyGet : Json → String → Except PyErr Json
  | .obj fields, key => .ok ((lastLookup fields key).getD .null)
  | _, _ => .error .attributeError

/-- Python `d.get(key, default)`: the default applies only when the key is
absent, not when its stored value is `None`. -/
def Json.pyGetD : Json → String → Json → Except PyErr Json
  | .obj fields, key, dflt => .ok ((lastLookup fields key).getD dflt)
  | _, _, _ => .error .attributeError

/-- Python `d[key]`: `KeyError` when the key is absent, `TypeError` when
the receiver is not a dict (indexing a list, string or number with a
string key). -/
def Json.pyIndex : Json → String → Except PyErr Json
  | .obj fields, key =>
      match lastLookup fields key with
      | some v => .ok v
      | none => .error (.keyError key)
  | _, _ => .error .typeError

/-- Python `x or y` on JSON values. -/
def pyOr (a b : Json) : Json :=
  if a.truthy then a else b

/-- One character of the class `[A-Z0-9]` under `re.IGNORECASE` (ASCII
case folding; exotic Unicode foldings are not modelled and no theorem in
this file depends on them). -/
def slackIdChar (c : Char) : Bool :=
  ('A' ≤ c && c ≤ 'Z') || ('a' ≤ c && c ≤ 'z') || ('0' ≤ c && c ≤ '9')

/-- Full match of `U[A-Z0-9]+` (case-insensitive) against a character list. -/
def slackIdChars : List Char → Bool
  | [] => false
  | c :: rest => (c == 'U' || c == 'u') && !rest.isEmpty && rest.all slackIdChar

/-- Boolean view of `re.match(r"^U[A-Z0-9]+$", s, re.I)`: in Python the
anchor `$` also matches just before a single trailing newline, so a string
consisting of a full match followed by one final newline is accepted. -/
def reMatchSlackId (s : String) : Bool :=
  slackIdChars s.data ||
    (match s.data.getLast? with
     | some c => c == '\n' && slackIdChars s.data.dropLast
     | none => false)

/-- Response headers of one upstream call, as the `dict(...)` built by
`_slack`; for a duplicated key the later pair wins. -/
abbrev Headers := List (String × String)

/-- Outcome of the HTTP transport for one upstream call, as observed by the
`try`/`except` in `_slack`:
* `success`: `urlopen` returned; `bodyJson` is the result of `json.loads`
  on the response body, `none` when parsing raises (the generic `except`
  then reports `request_failed:JSONDecodeError`);
* `httpError`: `urllib.error.HTTPError` with status `code`, raw body text
  `body`, the JSON parse of that body (`none` when parsing fails, in which
  case a fallback error object embeds the raw body), and its headers;
* `exc`: any other exception; `kind` is `type(e).__name__`. -/
inductive TransportResult where
  | success (bodyJson : Option Json) (headers : Headers) (status : Nat)
  | httpError (code : Nat) (body : String) (bodyJson : Option Json) (headers : Headers)
  | exc (kind : String)

/-- The function `_slack` normalised to its observable value: the
`(json, headers, status)` triple it returns for a given transport outcome.
The outgoing request construction (URL, bot token header, content type)
does not affect the returned value and is not modelled. -/
def slackResponse : TransportResult → Json × Headers × Nat
  | .success (some j) hs st => (j, hs, st)
  | .success none _ _ =>
      (.obj [("ok", .bool false), ("error", .str "request_failed:JSONDecodeError")], [], 0)
  | .httpError code _ (some j) hs => (j, hs, code)
  | .httpError code body none hs =>
      (.obj [("ok", .bool false), ("error", .str "http_error"), ("body", .str body)], hs, code)
  | .exc kind =>
      (.obj [("ok", .bool false), ("error", .str ("request_failed:" ++ kind))], [], 0)

/-- One outgoing call to the messaging API: the `path` and JSON `payload`
that `_slack` is invoked with. Recorded so that theorems can state which
external calls an entry caused. -/
structure SlackRequest where
  path : String
  payload : Json

/-- The fixed fallback message text on the send path. The code spells
`you’re` with a right single quotation mark (U+2019). -/
def fallbackText : String := "Heads up — you’re 1 minute late for your scheduled class."

/-- Title text of the header block (this one uses a plain ASCII apostrophe
in the source). -/
def headerBlockText : String := "Heads up — you\x27re 1 minute late"

/-- The `blocks` payload built for a send, as a function of `room_url`. -/
def blocks (room_url : String) : Json :=
  .arr [
    .obj [("type", .str "header"),
          ("text", .obj [("type", .str "plain_text"), ("text", .str headerBlockText)])],
    .obj [("type", .str "section"),
          ("text", .obj [("type", .str "mrkdwn"),
                         ("text", .str ("*Room:* <" ++ room_url ++ "|Join now>"))])],
    .obj [("type", .str "actions"),
          ("elements", .arr [
            .obj [("type", .str "button"),
                  ("text", .obj [("type", .str "plain_text"), ("text", .str "Join Room")]),
                  ("url", .str room_url)]])]]

/-- A `Retry-After` header value placed into a result dict: Python `None`
serialises as JSON `null`. -/
def jsonOfRetry : Option String → Json
  | some v => .str v
  | none => .null

/-- What one loop iteration produced when no exception escaped. -/
structure EntryOutcome where
  /-- the dict appended to `results` -/
  result : Json
  /-- upstream calls made for this entry, in order -/
  calls : List SlackRequest
  /-- whether `time.sleep(delay)` ran for this entry -/
  slept : Bool
  /-- oracle position after this entry -/
  next : Nat

/-- Outcome of an entry that fails local validation: an
`invalid_user_entry` result carrying the resolved `slack_id` value, no
upstream call, no pacing sleep. -/
def invalidEntryOutcome (slack_id : Json) (ctr : Nat) : EntryOutcome :=
  { result := .obj [("slack_id", slack_id), ("ok", .bool false),
                    ("error", .str "invalid_user_entry")],
    calls := [], slept := false, next := ctr }

/-- The open-DM / send-message part of a loop iteration, reached once local
validation passed (so `slack_id` is the matching string `sid` and
`room_url` is the string `url`); `custom_message` is the line-60 value
`(u or {}).get("custom_message") or default_message`. -/
def openAndSend (oracle : Nat → TransportResult) (ctr : Nat) (sid url : String)
    (custom_message : Json) : Except PyErr EntryOutcome := do
  let openCall : SlackRequest := ⟨"conversations.open", .obj [("users", .str sid)]⟩
  let (open_json, open_hdrs, _status) := slackResponse (oracle ctr)
  let okv ← open_json.pyGet "ok"
  if !okv.truthy then do
    let errv ← open_json.pyGetD "error" (.str "open_failed")
    pure { result := .obj [("slack_id", .str sid), ("ok", .bool false),
                           ("step", .str "open"), ("error", errv),
                           ("retry_after", jsonOfRetry (lastLookup open_hdrs "Retry-After"))],
           calls := [openCall], slept := true, next := ctr + 1 }
  else do
    let channelObj ← open_json.pyIndex "channel"
    let channel ← channelObj.pyIndex "id"
    let text := pyOr custom_message (.str fallbackText)
    let sendCall : SlackRequest := ⟨"chat.postMessage",
      .obj [("channel", channel), ("text", text), ("blocks", blocks url)]⟩
    let (send_json, send_hdrs, _status2) := slackResponse (oracle (ctr + 1))
    let okv2 ← send_json.pyGet "ok"
    if !okv2.truthy then do
      let errv2 ← send_json.pyGetD "error" (.str "send_failed")
      pure { result := .obj [("slack_id", .str sid), ("ok", .bool false),
                             ("step", .str "send"), ("error", errv2),
                             ("retry_after", jsonOfRetry (lastLookup send_hdrs "Retry-After"))],
             calls := [openCall, sendCall], slept := true, next := ctr + 2 }
    else do
      let ts ← send_json.pyIndex "ts"
      pure { result := .obj [("slack_id", .str sid), ("ok", .bool true),
                             ("channel", channel), ("ts", ts)],
             calls := [openCall, sendCall], slept := true, next := ctr + 2 }

/-- Body of the `for u in users` loop for one entry `u`. The three field
reads go through `(u or {}).get(...)`, so a truthy non-dict entry raises
`AttributeError` at the first read, and a truthy non-string `slack_id`
raises `TypeError` inside `re.match`. -/
def processEntry (oracle : Nat → TransportResult) (default_message : Json)
    (ctr : Nat) (u : Json) : Except PyErr EntryOutcome := do
  let base := if u.truthy then u else Json.obj []
  let slack_id ← base.pyGet "slack_id"
  let room_url ← base.pyGet "room_url"
  let custom0 ← base.pyGet "custom_message"
  let custom_message := pyOr custom0 default_message
  if !slack_id.truthy then
    pure (invalidEntryOutcome slack_id ctr)
  else
    match slack_id with
    | .str sid =>
        if !reMatchSlackId sid then pure (invalidEntryOutcome slack_id ctr)
        else
          match room_url with
          | .str url => openAndSend oracle ctr sid url custom_message
          | _ => pure (invalidEntryOutcome slack_id ctr)
    | _ => Except.error PyErr.typeError

/-- The whole `for u in users` loop: the `results` list and the final
oracle position, or the first uncaught exception. -/
def processUsers (oracle : Nat → TransportResult) (default_message : Json) :
    Nat → List Json → Except PyErr (List Json × Nat)
  | ctr, [] => .ok ([], ctr)
  | ctr, u :: rest => do
      let o ← processEntry oracle default_message ctr u
      let (rs, final) ← processUsers oracle default_message o.next rest
      pure (o.result :: rs, final)

/-- An inbound HTTP request as the handler observes it. Header names are
stored in canonical lower case (the framework header lookup used on line 42
is case-insensitive); `getJson` is `none` when `request.get_json()` raises. -/
structure Request where
  method : String
  headers : Headers
  getJson : Option Json

/-- An HTTP response `(status, body)`; the body is the dict passed to
`json.dumps`, and the constant `content-type: application/json` header is
not modelled. -/
structure Response where
  status : Nat
  body : Json

/-- A top-level error body `{"ok": false, "error": code}`. -/
def errorBody (code : String) : Json :=
  .obj [("ok", .bool false), ("error", .str code)]

/-- The notification dispatcher `handler` of `api/notify_late.py`,
parameterised by the configured shared secret `API_BEARER_TOKEN` and the
upstream oracle. `.error` is an uncaught Python exception escaping the
handler (so no HTTP response of its own is produced). -/
def handler (API_BEARER_TOKEN : String) (oracle : Nat → TransportResult)
    (request : Request) : Except PyErr Response :=
  if request.method ≠ "POST" then .ok ⟨405, errorBody "method_not_allowed"⟩
  else if API_BEARER_TOKEN ≠ "" ∧
      (lastLookup request.headers "authorization").getD "" ≠ "Bearer " ++ API_BEARER_TOKEN then
    .ok ⟨401, errorBody "unauthorized"⟩
  else
    match request.getJson with
    | none => .ok ⟨400, errorBody "bad_json"⟩
    | some body => do
        let users ← body.pyGet "users"
        match users with
        | .arr xs =>
            if xs.isEmpty then .ok ⟨422, errorBody "users_array_required"⟩
            else do
              let default_message ← body.pyGet "default_message"
              let (results, _) ← processUsers oracle default_message 0 xs
              pure ⟨200, .obj [("ok", .bool true), ("results", .arr results)]⟩
        | _ => .ok ⟨422, errorBody "users_array_required"⟩

/-- The view function `ping` of `api/ping.py`: `jsonify(ok=True, pong=True)`
with the default 200 status. -/
def ping : Nat × Json :=
  (200, .obj [("ok", .bool true), ("pong", .bool true)])

/-- Flask dispatch for the app in `api/ping.py`. The only registered rule
is `@app.get("/")`, i.e. methods `GET` (Flask adds `HEAD` and `OPTIONS`,
answering them itself). Any other method on `/` gets the Flask 405 page and
any other path the Flask 404 page; those framework bodies are not JSON and
are modelled as `none`. -/
def pingApp (method path : String) : Nat × Option Json :=
  if path = "/" then
    if method = "GET" then (ping.1, some ping.2)
    else if method = "HEAD" || method = "OPTIONS" then (200, none)
    else (405, none)
  else (404, none)

/-- Total read of a field of an entry as the loop resolves it:
`(u or {}).get(field)` when that expression does not raise, `null` for a
truthy non-dict entry (where the real code raises instead; theorems using
this function carry the hypothesis that rules the raising case out or
treat it separately). -/
def entryField (u : Json) (field : String) : Json :=
  jGet (if u.truthy then u else Json.obj []) field

/-- Entries on which the loop body cannot raise: the entry is falsy or a
JSON object, and its `slack_id` field, when truthy, is a string (so that
`re.match` receives a string). -/
def entryWF (u : Json) : Bool :=
  (!u.truthy || u.isObj) &&
  (!(entryField u "slack_id").truthy || (entryField u "slack_id").isStr)

/-- Upstream response bodies on which the success path cannot raise: the
body is a JSON object and, when its `ok` field is truthy, it has a
`"channel"` object containing `"id"` and a `"ts"` field. -/
def responseWF (j : Json) : Bool :=
  j.isObj && (!(jGet j "ok").truthy || (hasKey (jGet j "channel") "id" && hasKey j "ts"))

/-- An oracle all of whose response bodies are well formed. -/
def oracleWF (oracle : Nat → TransportResult) : Prop :=
  ∀ n, responseWF (slackResponse (oracle n)).1 = true

/-- The composition of line 60 and line 79: the message text actually sent
for a valid entry, as a function of the entry `custom_message` field value
and the request `default_message`. -/
def messageText (custom0 default_message : Json) : Json :=
  pyOr (pyOr custom0 default_message) (.str fallbackText)

/-- The fallback literal exactly as the specification spells it, with a
plain ASCII apostrophe (written \x27 here) instead of the U+2019 character
the code uses. -/
def specFallbackText : String := "Heads up — you\x27re 1 minute late for your scheduled class."

/-- Whether a value is empty or absent in the sense of the specification
sentence about the fallback: the absent marker `null` or the empty string. -/
def emptyOrAbsent : Json → Bool
  | .null => true
  | .str s => s == ""
  | _ => false

/-- The message-resolution rule as the specification words it:
`custom_message` when present and truthy, else `default_message`, and the
spec fallback literal when the resulting effective message is empty or
absent. Stated for comparison with `messageText`. -/
def specMessageText (custom0 default_message : Json) : Json :=
  let effective := if custom0.truthy then custom0 else default_message
  if emptyOrAbsent effective then .str specFallbackText else effective

/-! Basic reduction lemmas. -/

@[simp]
theorem exceptBind_ok {α β : Type} (a : α) (f : α → Except PyErr β) :
    (Except.ok a >>= f) = f a := rfl

@[simp]
theorem exceptBind_err {α β : Type} (e : PyErr) (f : α → Except PyErr β) :
    ((Except.error e : Except PyErr α) >>= f) = Except.error e := rfl

@[simp]
theorem exceptPure {α : Type} (a : α) :
    (pure a : Except PyErr α) = Except.ok a := rfl

/-- Reading a field of an object entry never consults the `or {}` default:
an empty object is falsy but has no fields anyway. -/
theorem entryField_obj (fields : List (String × Json)) (field : String) :
    entryField (.obj fields) field = jGet (.obj fields) field := by
  cases fields <;> rfl

/-- Loop body on an object entry, with the three field reads resolved. -/
theorem processEntry_obj (oracle : Nat → TransportResult) (dm : Json)
    (ctr : Nat) (fields : List (String × Json)) :
    processEntry oracle dm ctr (.obj fields) =
      (let slack_id := jGet (.obj fields) "slack_id"
       let room_url := jGet (.obj fields) "room_url"
       let custom_message := pyOr (jGet (.obj fields) "custom_message") dm
       if !slack_id.truthy then pure (invalidEntryOutcome slack_id ctr)
       else
         match slack_id with
         | .str sid =>
             if !reMatchSlackId sid then pure (invalidEntryOutcome slack_id ctr)
             else
               match room_url with
               | .str url => openAndSend oracle ctr sid url custom_message
               | _ => pure (invalidEntryOutcome slack_id ctr)
         | _ => Except.error PyErr.typeError) := by
  cases fields <;> rfl

/-- A falsy entry resolves all fields to `null` and fails validation. -/
theorem processEntry_falsy (oracle : Nat → TransportResult) (dm : Json)
    (ctr : Nat) (u : Json) (hu : u.truthy = false) :
    processEntry oracle dm ctr u = .ok (invalidEntryOutcome .null ctr) := by
  unfold processEntry
  rw [hu]
  rfl

/-- A truthy non-object entry raises `AttributeError` at the first
`(u or {}).get(...)`. -/
theorem processEntry_nonObj (oracle : Nat → TransportResult) (dm : Json)
    (ctr : Nat) (u : Json) (hu : u.truthy = true) (ho : u.isObj = false) :
    processEntry oracle dm ctr u = .error .attributeError := by
  unfold processEntry
  rw [hu]
  cases u <;> simp_all [Json.isObj, Json.pyGet]

/-- Validation failure: falsy `slack_id` field. -/
theorem processEntry_slackFalsy (oracle : Nat → TransportResult) (dm : Json)
    (ctr : Nat) (fields : List (String × Json))
    (h : (jGet (.obj fields) "slack_id").truthy = false) :
    processEntry oracle dm ctr (.obj fields) =
      .ok (invalidEntryOutcome (jGet (.obj fields) "slack_id") ctr) := by
  rw [processEntry_obj]
  simp only [h, Bool.not_false, if_pos]
  rfl

/-- Validation failure: string `slack_id` not matching the pattern. -/
theorem processEntry_badPattern (oracle : Nat → TransportResult) (dm : Json)
    (ctr : Nat) (fields : List (String × Json)) (sid : String)
    (hget : jGet (.obj fields) "slack_id" = .str sid)
    (hm : reMatchSlackId sid = false) :
    processEntry oracle dm ctr (.obj fields) =
      .ok (invalidEntryOutcome (.str sid) ctr) := by
  rw [processEntry_obj]
  simp only [hget]
  by_cases hsid : sid = ""
  · subst hsid
    rfl
  · have ht : (Json.str sid).truthy = true := by simp [Json.truthy, hsid]
    simp only [ht, Bool.not_true, Bool.false_eq_true, if_false, hm, Bool.not_false, if_pos]
    rfl

/-- Validation failure: matching `slack_id` but non-string `room_url`. -/
theorem processEntry_badRoom (oracle : Nat → TransportResult) (dm : Json)
    (ctr : Nat) (fields : List (String × Json)) (sid : String)
    (hget : jGet (.obj fields) "slack_id" = .str sid)
    (hm : reMatchSlackId sid = true)
    (hr : (jGet (.obj fields) "room_url").isStr = false) :
    processEntry oracle dm ctr (.obj fields) =
      .ok (invalidEntryOutcome (.str sid) ctr) := by
  have hsid : sid ≠ "" := by
    intro h
    subst h
    exact absurd hm (by decide)
  have ht : (Json.str sid).truthy = true := by simp [Json.truthy, hsid]
  rw [processEntry_obj]
  simp only [hget, ht, Bool.not_true, Bool.false_eq_true, if_false, hm, Bool.not_false]
  cases hru : jGet (.obj fields) "room_url" <;> simp_all [Json.isStr]

/-- A truthy non-string `slack_id` reaches `re.match` and raises
`TypeError`. -/
theorem processEntry_slackNonStr (oracle : Nat → TransportResult) (dm : Json)
    (ctr : Nat) (fields : List (String × Json))
    (ht : (jGet (.obj fields) "slack_id").truthy = true)
    (hs : (jGet (.obj fields) "slack_id").isStr = false) :
    processEntry oracle dm ctr (.obj fields) = .error .typeError := by
  rw [processEntry_obj]
  cases hget : jGet (.obj fields) "slack_id" <;> simp_all [Json.isStr]

/-- A locally valid entry proceeds to the open/send phase, with the
effective message resolved on the way. -/
theorem processEntry_valid (oracle : Nat → TransportResult) (dm : Json)
    (ctr : Nat) (fields : List (String × Json)) (sid url : String)
    (hget : jGet (.obj fields) "slack_id" = .str sid)
    (hm : reMatchSlackId sid = true)
    (hroom : jGet (.obj fields) "room_url" = .str url) :
    processEntry oracle dm ctr (.obj fields) =
      openAndSend oracle ctr sid url (pyOr (jGet (.obj fields) "custom_message") dm) := by
  have hsid : sid ≠ "" := by
    intro h
    subst h
    exact absurd hm (by decide)
  have ht : (Json.str sid).truthy = true := by simp [Json.truthy, hsid]
  rw [processEntry_obj]
  simp only [hget, hroom, ht, Bool.not_true, Bool.false_eq_true, if_false, hm, Bool.not_false]

/-- Open call does not report success: an `open` step failure result with
the upstream error code (or `open_failed`), the `Retry-After` header value
(null when absent), a pacing sleep, and no send call. -/
theorem openAndSend_openFail (oracle : Nat → TransportResult) (ctr : Nat)
    (sid url : String) (cm : Json) (ofields : List (String × Json))
    (ohdrs : Headers) (ost : Nat)
    (hres : slackResponse (oracle ctr) = (.obj ofields, ohdrs, ost))
    (hok : ((lastLookup ofields "ok").getD .null).truthy = false) :
    openAndSend oracle ctr sid url cm = .ok
      { result := .obj [("slack_id", .str sid), ("ok", .bool false),
                        ("step", .str "open"),
                        ("error", (lastLookup ofields "error").getD (.str "open_failed")),
                        ("retry_after", jsonOfRetry (lastLookup ohdrs "Retry-After"))],
        calls := [⟨"conversations.open", .obj [("users", .str sid)]⟩],
        slept := true, next := ctr + 1 } := by
  unfold openAndSend
  rw [hres]
  simp [Json.pyGet, Json.pyGetD, hok]

/-- Open call reports success but its body has no `"channel"` object with
an `"id"`: the unguarded `open_json["channel"]["id"]` raises. -/
theorem openAndSend_channelCrash (oracle : Nat → TransportResult) (ctr : Nat)
    (sid url : String) (cm : Json) (ofields : List (String × Json))
    (ohdrs : Headers) (ost : Nat)
    (hres : slackResponse (oracle ctr) = (.obj ofields, ohdrs, ost))
    (hok : ((lastLookup ofields "ok").getD .null).truthy = true)
    (hch : hasKey (jGet (.obj ofields) "channel") "id" = false) :
    ∃ e, openAndSend oracle ctr sid url cm = .error e := by
  unfold openAndSend
  rw [hres]
  simp only [Json.pyGet, exceptBind_ok, hok, Bool.not_true, Bool.false_eq_true, if_false]
  cases hc : lastLookup ofields "channel" with
  | none => exact ⟨.keyError "channel", by simp [Json.pyIndex, hc]⟩
  | some cv =>
      cases cv with
      | obj cfields =>
          cases hid : lastLookup cfields "id" with
          | none =>
              exact ⟨.keyError "id", by simp [Json.pyIndex, hc, hid]⟩
          | some w => simp_all [hasKey, jGet, hc]
      | null => exact ⟨.typeError, by simp [Json.pyIndex, hc]⟩
      | bool b => exact ⟨.typeError, by simp [Json.pyIndex, hc]⟩
      | num n => exact ⟨.typeError, by simp [Json.pyIndex, hc]⟩
      | str s => exact ⟨.typeError, by simp [Json.pyIndex, hc]⟩
      | arr xs => exact ⟨.typeError, by simp [Json.pyIndex, hc]⟩

/-- Open call succeeds with a channel id, send call does not report
success: a `send` step failure result, both calls made, a pacing sleep. -/
theorem openAndSend_sendFail (oracle : Nat → TransportResult) (ctr : Nat)
    (sid url : String) (cm : Json) (ofields : List (String × Json))
    (ohdrs : Headers) (ost : Nat) (cfields : List (String × Json))
    (channel : Json) (sfields : List (String × Json)) (shdrs : Headers) (sst : Nat)
    (hres : slackResponse (oracle ctr) = (.obj ofields, ohdrs, ost))
    (hok : ((lastLookup ofields "ok").getD .null).truthy = true)
    (hc : lastLookup ofields "channel" = some (.obj cfields))
    (hid : lastLookup cfields "id" = some channel)
    (hres2 : slackResponse (oracle (ctr + 1)) = (.obj sfields, shdrs, sst))
    (hok2 : ((lastLookup sfields "ok").getD .null).truthy = false) :
    openAndSend oracle ctr sid url cm = .ok
      { result := .obj [("slack_id", .str sid), ("ok", .bool false),
                        ("step", .str "send"),
                        ("error", (lastLookup sfields "error").getD (.str "send_failed")),
                        ("retry_after", jsonOfRetry (lastLookup shdrs "Retry-After"))],
        calls := [⟨"conversations.open", .obj [("users", .str sid)]⟩,
                  ⟨"chat.postMessage", .obj [("channel", channel),
                    ("text", pyOr cm (.str fallbackText)), ("blocks", blocks url)]⟩],
        slept := true, next := ctr + 2 } := by
  unfold openAndSend
  rw [hres]
  simp only [Json.pyGet, exceptBind_ok, hok, Bool.not_true, Bool.false_eq_true, if_false,
    Json.pyIndex, hc, hid]
  rw [hres2]
  simp [Json.pyGet, Json.pyGetD, hok2]

/-- Open and send both succeed, with a `"ts"` present: the success result
with the channel id and timestamp, both calls made, a pacing sleep. -/
theorem openAndSend_success (oracle : Nat → TransportResult) (ctr : Nat)
    (sid url : String) (cm : Json) (ofields : List (String × Json))
    (ohdrs : Headers) (ost : Nat) (cfields : List (String × Json))
    (channel : Json) (sfields : List (String × Json)) (shdrs : Headers) (sst : Nat)
    (ts : Json)
    (hres : slackResponse (oracle ctr) = (.obj ofields, ohdrs, ost))
    (hok : ((lastLookup ofields "ok").getD .null).truthy = true)
    (hc : lastLookup ofields "channel" = some (.obj cfields))
    (hid : lastLookup cfields "id" = some channel)
    (hres2 : slackResponse (oracle (ctr + 1)) = (.obj sfields, shdrs, sst))
    (hok2 : ((lastLookup sfields "ok").getD .null).truthy = true)
    (hts : lastLookup sfields "ts" = some ts) :
    openAndSend oracle ctr sid url cm = .ok
      { result := .obj [("slack_id", .str sid), ("ok", .bool true),
                        ("channel", channel), ("ts", ts)],
        calls := [⟨"conversations.open", .obj [("users", .str sid)]⟩,
                  ⟨"chat.postMessage", .obj [("channel", channel),
                    ("text", pyOr cm (.str fallbackText)), ("blocks", blocks url)]⟩],
        slept := true, next := ctr + 2 } := by
  unfold openAndSend
  rw [hres]
  simp only [Json.pyGet, exceptBind_ok, hok, Bool.not_true, Bool.false_eq_true, if_false,
    Json.pyIndex, hc, hid]
  rw [hres2]
  simp [Json.pyGet, hok2, hts]

/-- Open succeeds with a channel id, send reports success but omits
`"ts"`: the unguarded `send_json["ts"]` raises `KeyError`. -/
theorem openAndSend_tsCrash (oracle : Nat → TransportResult) (ctr : Nat)
    (sid url : String) (cm : Json) (ofields : List (String × Json))
    (ohdrs : Headers) (ost : Nat) (cfields : List (String × Json))
    (channel : Json) (sfields : List (String × Json)) (shdrs : Headers) (sst : Nat)
    (hres : slackResponse (oracle ctr) = (.obj ofields, ohdrs, ost))
    (hok : ((lastLookup ofields "ok").getD .null).truthy = true)
    (hc : lastLookup ofields "channel" = some (.obj cfields))
    (hid : lastLookup cfields "id" = some channel)
    (hres2 : slackResponse (oracle (ctr + 1)) = (.obj sfields, shdrs, sst))
    (hok2 : ((lastLookup sfields "ok").getD .null).truthy = true)
    (hts : lastLookup sfields "ts" = none) :
    openAndSend oracle ctr sid url cm = .error (.keyError "ts") := by
  unfold openAndSend
  rw [hres]
  simp only [Json.pyGet, exceptBind_ok, hok, Bool.not_true, Bool.false_eq_true, if_false,
    Json.pyIndex, hc, hid]
  rw [hres2]
  simp [Json.pyGet, hok2, hts, Json.pyIndex]

/-- On a well-formed entry and well-formed upstream responses the loop body
returns an outcome (it cannot raise), and the outcome result carries the
resolved `slack_id` value of the entry. -/
theorem processEntry_wf (oracle : Nat → TransportResult) (dm : Json) (ctr : Nat)
    (u : Json) (hu : entryWF u = true) (hwf : oracleWF oracle) :
    ∃ o : EntryOutcome, processEntry oracle dm ctr u = .ok o ∧
      jGet o.result "slack_id" = entryField u "slack_id" := by
  cases hut : u.truthy with
  | false =>
      refine ⟨_, processEntry_falsy oracle dm ctr u hut, ?_⟩
      simp [invalidEntryOutcome, jGet, lastLookup, entryField, hut]
  | true =>
      have hobj : u.isObj = true := by
        simp only [entryWF, hut, Bool.not_true, Bool.false_or, Bool.and_eq_true] at hu
        exact hu.1
      cases u with
      | obj fields =>
          rw [entryField_obj]
          have hstr : (jGet (.obj fields) "slack_id").truthy = false ∨
              (jGet (.obj fields) "slack_id").isStr = true := by
            simp only [entryWF, Bool.and_eq_true, Bool.or_eq_true, Bool.not_eq_true',
              entryField_obj] at hu
            exact hu.2
          cases hst : (jGet (.obj fields) "slack_id").truthy with
          | false =>
              refine ⟨_, processEntry_slackFalsy oracle dm ctr fields hst, ?_⟩
              simp [invalidEntryOutcome, jGet, lastLookup]
          | true =>
              have hisstr : (jGet (.obj fields) "slack_id").isStr = true := by
                rcases hstr with h | h
                · rw [hst] at h
                  exact absurd h (by decide)
                · exact h
              cases hget : jGet (.obj fields) "slack_id" with
              | str sid =>
                  cases hm : reMatchSlackId sid with
                  | false =>
                      refine ⟨_, processEntry_badPattern oracle dm ctr fields sid hget hm, ?_⟩
                      simp [invalidEntryOutcome, jGet, lastLookup]
                  | true =>
                      cases hrs : (jGet (.obj fields) "room_url").isStr with
                      | false =>
                          refine ⟨_, processEntry_badRoom oracle dm ctr fields sid hget hm hrs, ?_⟩
                          simp [invalidEntryOutcome, jGet, lastLookup]
                      | true =>
                          cases hroom : jGet (.obj fields) "room_url" with
                          | str url =>
                              rw [processEntry_valid oracle dm ctr fields sid url hget hm hroom]
                              have h1 := hwf ctr
                              rcases hres : slackResponse (oracle ctr) with ⟨oj, ohdrs, ost⟩
                              rw [hres] at h1
                              cases oj with
                              | obj ofields =>
                                  cases hok : ((lastLookup ofields "ok").getD .null).truthy with
                                  | false =>
                                      refine ⟨_, openAndSend_openFail oracle ctr sid url _
                                        ofields ohdrs ost hres hok, ?_⟩
                                      simp [jGet, lastLookup]
                                  | true =>
                                      have h1' : hasKey (jGet (.obj ofields) "channel") "id" = true ∧
                                          hasKey (.obj ofields) "ts" = true := by
                                        simp only [responseWF, Json.isObj, Bool.true_and,
                                          Bool.or_eq_true, Bool.not_eq_true',
                                          Bool.and_eq_true] at h1
                                        rcases h1 with h | h
                                        · rw [show jGet (.obj ofields) "ok" =
                                            (lastLookup ofields "ok").getD .null from rfl] at h
                                          rw [h] at hok
                                          exact absurd hok (by decide)
                                        · exact h
                                      obtain ⟨hchan, _⟩ := h1'
                                      cases hcv : lastLookup ofields "channel" with
                                      | none =>
                                          rw [show jGet (.obj ofields) "channel" =
                                            (lastLookup ofields "channel").getD .null from rfl,
                                            hcv] at hchan
                                          exact absurd hchan (by decide)
                                      | some cv =>
                                          have hcvj : jGet (.obj ofields) "channel" = cv := by
                                            simp [jGet, hcv]
                                          rw [hcvj] at hchan
                                          cases cv with
                                          | obj cfields =>
                                              cases hid : lastLookup cfields "id" with
                                              | none =>
                                                  simp [hasKey, hid] at hchan
                                              | some channel =>
                                                  have h2 := hwf (ctr + 1)
                                                  rcases hres2 : slackResponse (oracle (ctr + 1)) with
                                                    ⟨sj, shdrs, sst⟩
                                                  rw [hres2] at h2
                                                  cases sj with
                                                  | obj sfields =>
                                                      cases hok2 : ((lastLookup sfields "ok").getD
                                                          .null).truthy with
                                                      | false =>
                                                          refine ⟨_, openAndSend_sendFail oracle ctr
                                                            sid url _ ofields ohdrs ost cfields
                                                            channel sfields shdrs sst hres hok hcv
                                                            hid hres2 hok2, ?_⟩
                                                          simp [jGet, lastLookup]
                                                      | true =>
                                                          have hts' : hasKey (.obj sfields) "ts" = true := by
                                                            simp only [responseWF, Json.isObj,
                                                              Bool.true_and, Bool.or_eq_true,
                                                              Bool.not_eq_true',
                                                              Bool.and_eq_true] at h2
                                                            rcases h2 with h | h
                                                            · rw [show jGet (.obj sfields) "ok" =
                                                                (lastLookup sfields "ok").getD .null
                                                                from rfl] at h
                                                              rw [h] at hok2
                                                              exact absurd hok2 (by decide)
                                                            · exact h.2
                                                          cases hts : lastLookup sfields "ts" with
                                                          | none =>
                                                              simp [hasKey, hts] at hts'
                                                          | some ts =>
                                                              refine ⟨_, openAndSend_success oracle
                                                                ctr sid url _ ofields ohdrs ost
                                                                cfields channel sfields shdrs sst ts
                                                                hres hok hcv hid hres2 hok2 hts, ?_⟩
                                                              simp [jGet, lastLookup]
                                                  | null => simp [responseWF, Json.isObj] at h2
                                                  | bool b => simp [responseWF, Json.isObj] at h2
                                                  | num n => simp [responseWF, Json.isObj] at h2
                                                  | str s => simp [responseWF, Json.isObj] at h2
                                                  | arr l => simp [responseWF, Json.isObj] at h2
                                          | null => simp [hasKey] at hchan
                                          | bool b => simp [hasKey] at hchan
                                          | num n => simp [hasKey] at hchan
                                          | str s => simp [hasKey] at hchan
                                          | arr l => simp [hasKey] at hchan
                              | null => simp [responseWF, Json.isObj] at h1
                              | bool b => simp [responseWF, Json.isObj] at h1
                              | num n => simp [responseWF, Json.isObj] at h1
                              | str s => simp [responseWF, Json.isObj] at h1
                              | arr l => simp [responseWF, Json.isObj] at h1
                          | null => exact absurd hroom (by rw [hroom] at hrs; simp [Json.isStr] at hrs)
                          | bool b => exact absurd hroom (by rw [hroom] at hrs; simp [Json.isStr] at hrs)
                          | num n => exact absurd hroom (by rw [hroom] at hrs; simp [Json.isStr] at hrs)
                          | arr l => exact absurd hroom (by rw [hroom] at hrs; simp [Json.isStr] at hrs)
                          | obj l => exact absurd hroom (by rw [hroom] at hrs; simp [Json.isStr] at hrs)
              | null => rw [hget] at hisstr; simp [Json.isStr] at hisstr
              | bool b => rw [hget] at hisstr; simp [Json.isStr] at hisstr
              | num n => rw [hget] at hisstr; simp [Json.isStr] at hisstr
              | arr l => rw [hget] at hisstr; simp [Json.isStr] at hisstr
              | obj l => rw [hget] at hisstr; simp [Json.isStr] at hisstr
      | null => simp [Json.isObj] at hobj
      | bool b => simp [Json.isObj] at hobj
      | num n => simp [Json.isObj] at hobj
      | str s => simp [Json.isObj] at hobj
      | arr l => simp [Json.isObj] at hobj

/-- Over well-formed entries and responses the loop returns one result per
entry, in input order (the result at position `i` carries the resolved
`slack_id` of the entry at position `i`). -/
theorem processUsers_wf (oracle : Nat → TransportResult) (dm : Json)
    (hwf : oracleWF oracle) :
    ∀ (xs : List Json) (ctr : Nat), (∀ u ∈ xs, entryWF u = true) →
    ∃ (rs : List Json) (final : Nat),
      processUsers oracle dm ctr xs = .ok (rs, final) ∧
      rs.length = xs.length ∧
      ∀ i, i < xs.length →
        jGet (rs.getD i .null) "slack_id" = entryField (xs.getD i .null) "slack_id" := by
  intro xs
  induction xs with
  | nil =>
      intro ctr _
      exact ⟨[], ctr, rfl, rfl, fun i hi => absurd hi (by simp)⟩
  | cons u rest ih =>
      intro ctr hents
      obtain ⟨o, ho, hsid⟩ := processEntry_wf oracle dm ctr u
        (hents u (List.mem_cons_self u rest)) hwf
      obtain ⟨rs, final, hrun, hlen, hord⟩ := ih o.next
        (fun v hv => hents v (List.mem_cons_of_mem u hv))
      refine ⟨o.result :: rs, final, ?_, by simp [hlen], ?_⟩
      · simp [processUsers, ho, hrun]
      · intro i hi
        cases i with
        | zero => simpa using hsid
        | succ j =>
            have hj : j < rest.length := by
              simpa [Nat.succ_lt_succ_iff] using hi
            simpa using hord j hj

/-- Once validation passes, over well-formed entries and responses the
handler returns 200 with `ok: true` and one result per entry in order. -/
theorem handler_ok (token : String) (oracle : Nat → TransportResult)
    (req : Request) (bfields : List (String × Json)) (xs : List Json)
    (hm : req.method = "POST")
    (ha : token = "" ∨ (lastLookup req.headers "authorization").getD "" = "Bearer " ++ token)
    (hb : req.getJson = some (.obj bfields))
    (husers : lastLookup bfields "users" = some (.arr xs))
    (hne : xs ≠ [])
    (hents : ∀ u ∈ xs, entryWF u = true)
    (hwf : oracleWF oracle) :
    ∃ rs : List Json,
      handler token oracle req =
        .ok ⟨200, .obj [("ok", .bool true), ("results", .arr rs)]⟩ ∧
      rs.length = xs.length ∧
      ∀ i, i < xs.length →
        jGet (rs.getD i .null) "slack_id" = entryField (xs.getD i .null) "slack_id" := by
  obtain ⟨rs, final, hrun, hlen, hord⟩ := processUsers_wf oracle
    ((lastLookup bfields "default_message").getD .null) hwf xs 0 hents
  refine ⟨rs, ?_, hlen, hord⟩
  unfold handler
  rw [hm, hb]
  have hauth : ¬(token ≠ "" ∧
      (lastLookup req.headers "authorization").getD "" ≠ "Bearer " ++ token) := by
    rcases ha with h | h
    · exact fun hc => hc.1 h
    · exact fun hc => hc.2 h
  simp only [ne_eq, not_true_eq_false, if_false, hauth, if_neg, not_false_eq_true]
  simp only [Json.pyGet, husers, Option.getD_some, exceptBind_ok]
  rw [if_neg (by simpa [List.isEmpty_iff] using hne)]
  simp [hrun]

/-! Concrete sample inputs used by witnesses and counterexamples. -/

/-- An oracle whose every call fails at the transport level. -/
def failOracle : Nat → TransportResult := fun _ => .exc "URLError"

/-- A well-formed upstream success body: reports `ok`, carries a channel id
and a timestamp. -/
def okBody : Json :=
  .obj [("ok", .bool true), ("channel", .obj [("id", .str "C123")]), ("ts", .str "1700.42")]

/-- An oracle whose every call succeeds with `okBody`. -/
def goodOracle : Nat → TransportResult := fun _ => .success (some okBody) [] 200

/-- An entry passing local validation. -/
def validEntry : Json :=
  .obj [("slack_id", .str "U123ABC"), ("room_url", .str "https://rooms.example/1")]

/-! Claim C1. -/

/-- C1: for every request that passes validation, the results array has
exactly one UserResult per input entry, in input order. As stated the
claim fails (see the counterexample: a truthy non-object entry makes the
loop raise, so no results array is produced). Amended: it holds provided
every entry is falsy or a JSON object whose truthy `slack_id` is a string,
and every upstream response body is a JSON object carrying `channel.id`
and `ts` whenever it reports `ok`. -/
theorem claim1_one_result_per_entry (token : String) (oracle : Nat → TransportResult)
    (req : Request) (bfields : List (String × Json)) (xs : List Json)
    (hm : req.method = "POST")
    (ha : token = "" ∨ (lastLookup req.headers "authorization").getD "" = "Bearer " ++ token)
    (hb : req.getJson = some (.obj bfields))
    (husers : lastLookup bfields "users" = some (.arr xs))
    (hne : xs ≠ [])
    (hents : ∀ u ∈ xs, entryWF u = true)
    (hwf : oracleWF oracle) :
    ∃ rs : List Json,
      handler token oracle req =
        .ok ⟨200, .obj [("ok", .bool true), ("results", .arr rs)]⟩ ∧
      rs.length = xs.length ∧
      ∀ i, i < xs.length →
        jGet (rs.getD i .null) "slack_id" = entryField (xs.getD i .null) "slack_id" :=
  handler_ok token oracle req bfields xs hm ha hb husers hne hents hwf

/-- C1 counterexample: a request that passes validation (POST, no secret,
JSON body, non-empty users list) whose single entry is a truthy non-object
string; the loop raises `AttributeError` at `(u or {}).get`, so the
handler produces no results array at all. -/
theorem claim1_counterexample :
    handler "" failOracle ⟨"POST", [], some (.obj [("users", .arr [.str "late-user"])])⟩ =
      .error .attributeError := rfl

/-- C1 witness: the amended theorem applied at a concrete valid request. -/
theorem claim1_witness :
    (∀ u ∈ [validEntry], entryWF u = true) ∧ oracleWF goodOracle ∧
    ∃ rs : List Json,
      handler "" goodOracle ⟨"POST", [], some (.obj [("users", .arr [validEntry])])⟩ =
        .ok ⟨200, .obj [("ok", .bool true), ("results", .arr rs)]⟩ ∧
      rs.length = [validEntry].length ∧
      ∀ i, i < [validEntry].length →
        jGet (rs.getD i .null) "slack_id" = entryField ([validEntry].getD i .null) "slack_id" :=
  ⟨fun u hu => by rw [List.mem_singleton] at hu; subst hu; rfl,
   fun n => rfl,
   claim1_one_result_per_entry "" goodOracle
     ⟨"POST", [], some (.obj [("users", .arr [validEntry])])⟩ [("users", .arr [validEntry])]
     [validEntry] rfl (Or.inl rfl) rfl rfl (List.cons_ne_nil _ _)
     (fun u hu => by rw [List.mem_singleton] at hu; subst hu; rfl)
     (fun n => rfl)⟩

/-! Claim C2. -/

/-- C2: once validation passes the handler always returns 200 with
`ok: true` and a results array, for every users list and every combination
of per-item failures. As stated the claim fails (see the counterexample: a
truthy non-string `slack_id` raises `TypeError` inside `re.match`, so no
response is produced). Amended: it holds provided every entry is falsy or
a JSON object whose truthy `slack_id` is a string and every upstream
response body is a JSON object carrying `channel.id` and `ts` whenever it
reports `ok`; per-item validation and upstream failures indeed never
change the status or the top-level `ok`. -/
theorem claim2_status_200_once_validated (token : String)
    (oracle : Nat → TransportResult) (req : Request)
    (bfields : List (String × Json)) (xs : List Json)
    (hm : req.method = "POST")
    (ha : token = "" ∨ (lastLookup req.headers "authorization").getD "" = "Bearer " ++ token)
    (hb : req.getJson = some (.obj bfields))
    (husers : lastLookup bfields "users" = some (.arr xs))
    (hne : xs ≠ [])
    (hents : ∀ u ∈ xs, entryWF u = true)
    (hwf : oracleWF oracle) :
    ∃ rs : List Json,
      handler token oracle req =
        .ok ⟨200, .obj [("ok", .bool true), ("results", .arr rs)]⟩ := by
  obtain ⟨rs, h, -, -⟩ := handler_ok token oracle req bfields xs hm ha hb husers hne hents hwf
  exact ⟨rs, h⟩

/-- C2 counterexample: validation passes, yet the batch crashes with an
uncaught `TypeError` (numeric `slack_id`), so no 200 response is
returned. -/
theorem claim2_counterexample :
    handler "" failOracle
      ⟨"POST", [], some (.obj [("users",
        .arr [.obj [("slack_id", .num 99), ("room_url", .str "https://x")]])])⟩ =
      .error .typeError := rfl

/-- C2 witness: the amended theorem at a request whose only entry fails
upstream (transport error on open); the response is still 200 `ok: true`. -/
theorem claim2_witness :
    (∀ u ∈ [validEntry], entryWF u = true) ∧ oracleWF failOracle ∧
    ∃ rs : List Json,
      handler "" failOracle ⟨"POST", [], some (.obj [("users", .arr [validEntry])])⟩ =
        .ok ⟨200, .obj [("ok", .bool true), ("results", .arr rs)]⟩ :=
  ⟨fun u hu => by rw [List.mem_singleton] at hu; subst hu; rfl,
   fun n => rfl,
   claim2_status_200_once_validated "" failOracle
     ⟨"POST", [], some (.obj [("users", .arr [validEntry])])⟩ [("users", .arr [validEntry])]
     [validEntry] rfl (Or.inl rfl) rfl rfl (List.cons_ne_nil _ _)
     (fun u hu => by rw [List.mem_singleton] at hu; subst hu; rfl)
     (fun n => rfl)⟩

/-! Claim C3. -/

/-- A `users` value that is missing (resolved to `null`), not a list, or
an empty list. -/
def usersFieldBad (j : Json) : Bool :=
  match j with
  | .arr xs => xs.isEmpty
  | _ => true

/-- C3: request validation runs in the fixed order 405, 401, 400, 422,
each check short-circuiting (the auth check skipped entirely when no
secret is configured). As stated the claim fails on its last clause (see
the counterexample: with a non-object JSON body the users check raises
`AttributeError` instead of returning 422). Amended: the first three
checks are exactly as claimed, and the 422 check is as claimed provided
the parsed body is a JSON object. -/
theorem claim3_validation_order (token : String) (oracle : Nat → TransportResult)
    (req : Request) :
    (req.method ≠ "POST" →
      handler token oracle req = .ok ⟨405, errorBody "method_not_allowed"⟩) ∧
    (req.method = "POST" → token ≠ "" →
      (lastLookup req.headers "authorization").getD "" ≠ "Bearer " ++ token →
      handler token oracle req = .ok ⟨401, errorBody "unauthorized"⟩) ∧
    (req.method = "POST" →
      (token = "" ∨ (lastLookup req.headers "authorization").getD "" = "Bearer " ++ token) →
      req.getJson = none →
      handler token oracle req = .ok ⟨400, errorBody "bad_json"⟩) ∧
    (∀ bfields : List (String × Json), req.method = "POST" →
      (token = "" ∨ (lastLookup req.headers "authorization").getD "" = "Bearer " ++ token) →
      req.getJson = some (.obj bfields) →
      usersFieldBad (jGet (.obj bfields) "users") = true →
      handler token oracle req = .ok ⟨422, errorBody "users_array_required"⟩) ∧
    (∀ b : Json, req.method = "POST" →
      (token = "" ∨ (lastLookup req.headers "authorization").getD "" = "Bearer " ++ token) →
      req.getJson = some b → b.isObj = false →
      handler token oracle req = .error .attributeError) := by
  have hauth : ∀ h : token = "" ∨
      (lastLookup req.headers "authorization").getD "" = "Bearer " ++ token,
      ¬(token ≠ "" ∧ (lastLookup req.headers "authorization").getD "" ≠ "Bearer " ++ token) := by
    rintro (h | h) ⟨h1, h2⟩
    · exact h1 h
    · exact h2 h
  refine ⟨?_, ?_, ?_, ?_, ?_⟩
  · intro h
    unfold handler
    rw [if_pos h]
  · intro hm ht hl
    unfold handler
    rw [if_neg (by rw [hm]; simp), if_pos ⟨ht, hl⟩]
  · intro hm ha hj
    unfold handler
    rw [if_neg (by rw [hm]; simp), if_neg (hauth ha), hj]
  · intro bfields hm ha hb hus
    unfold handler
    rw [if_neg (by rw [hm]; simp), if_neg (hauth ha), hb]
    simp only [Json.pyGet, exceptBind_ok]
    have hj : jGet (.obj bfields) "users" = (lastLookup bfields "users").getD .null := rfl
    rw [← hj]
    cases hv : jGet (.obj bfields) "users" with
    | arr xs =>
        rw [hv] at hus
        simp only [usersFieldBad] at hus
        simp [hus]
    | null => rfl
    | bool b => rfl
    | num n => rfl
    | str s => rfl
    | obj l => rfl
  · intro b hm ha hb hno
    unfold handler
    rw [if_neg (by rw [hm]; simp), if_neg (hauth ha), hb]
    cases b <;> simp_all [Json.isObj, Json.pyGet]

/-- C3 counterexample: POST, open access, body parsing to the JSON number
5 — the users field is certainly missing, yet the handler raises
`AttributeError` at `body.get("users")` instead of returning 422. -/
theorem claim3_counterexample :
    handler "" failOracle ⟨"POST", [], some (.num 5)⟩ = .error .attributeError ∧
    handler "" failOracle ⟨"POST", [], some (.num 5)⟩ ≠
      .ok ⟨422, errorBody "users_array_required"⟩ :=
  ⟨rfl, fun h => Except.noConfusion h⟩

/-- C3 witness: the four error responses at concrete requests. -/
theorem claim3_witness :
    handler "s3c" failOracle ⟨"GET", [], none⟩ = .ok ⟨405, errorBody "method_not_allowed"⟩ ∧
    handler "s3c" failOracle ⟨"POST", [("authorization", "Bearer nope")], none⟩ =
      .ok ⟨401, errorBody "unauthorized"⟩ ∧
    handler "s3c" failOracle ⟨"POST", [("authorization", "Bearer s3c")], none⟩ =
      .ok ⟨400, errorBody "bad_json"⟩ ∧
    handler "" failOracle ⟨"POST", [], some (.obj [("users", .str "nope")])⟩ =
      .ok ⟨422, errorBody "users_array_required"⟩ ∧
    handler "" failOracle ⟨"POST", [], some (.arr [])⟩ = .error .attributeError :=
  ⟨(claim3_validation_order "s3c" failOracle ⟨"GET", [], none⟩).1 (by decide),
   (claim3_validation_order "s3c" failOracle
     ⟨"POST", [("authorization", "Bearer nope")], none⟩).2.1 rfl (by decide) (by decide),
   (claim3_validation_order "s3c" failOracle
     ⟨"POST", [("authorization", "Bearer s3c")], none⟩).2.2.1 rfl (Or.inr rfl) rfl,
   (claim3_validation_order "" failOracle
     ⟨"POST", [], some (.obj [("users", .str "nope")])⟩).2.2.2.1
     [("users", .str "nope")] rfl (Or.inl rfl) rfl rfl,
   (claim3_validation_order "" failOracle
     ⟨"POST", [], some (.arr [])⟩).2.2.2.2 (.arr []) rfl (Or.inl rfl) rfl rfl⟩

/-! Claim C4. -/

/-- C4: entries failing local validation get an `invalid_user_entry`
result with no external call and no pacing delay. As stated the claim
fails (see the counterexample: an entry whose `room_url` is not a string
but whose `slack_id` is a truthy non-string raises `TypeError` instead of
producing the result). Amended: for an object entry, a falsy `slack_id`,
a string `slack_id` failing the pattern, or a matching `slack_id` with a
non-string `room_url` each yield exactly the `invalid_user_entry` result
with no call and no sleep, while a truthy non-string `slack_id` raises
`TypeError` uncaught. -/
theorem claim4_invalid_user_entry (oracle : Nat → TransportResult) (dm : Json)
    (ctr : Nat) (fields : List (String × Json)) :
    ((jGet (.obj fields) "slack_id").truthy = false →
      processEntry oracle dm ctr (.obj fields) =
        .ok (invalidEntryOutcome (jGet (.obj fields) "slack_id") ctr)) ∧
    (∀ sid : String, jGet (.obj fields) "slack_id" = .str sid →
      reMatchSlackId sid = false →
      processEntry oracle dm ctr (.obj fields) =
        .ok (invalidEntryOutcome (.str sid) ctr)) ∧
    (∀ sid : String, jGet (.obj fields) "slack_id" = .str sid →
      reMatchSlackId sid = true → (jGet (.obj fields) "room_url").isStr = false →
      processEntry oracle dm ctr (.obj fields) =
        .ok (invalidEntryOutcome (.str sid) ctr)) ∧
    ((jGet (.obj fields) "slack_id").truthy = true →
      (jGet (.obj fields) "slack_id").isStr = false →
      processEntry oracle dm ctr (.obj fields) = .error .typeError) :=
  ⟨fun h => processEntry_slackFalsy oracle dm ctr fields h,
   fun sid h1 h2 => processEntry_badPattern oracle dm ctr fields sid h1 h2,
   fun sid h1 h2 h3 => processEntry_badRoom oracle dm ctr fields sid h1 h2 h3,
   fun h1 h2 => processEntry_slackNonStr oracle dm ctr fields h1 h2⟩

/-- C4 counterexample: an entry whose `room_url` is not a string (so the
claim demands an `invalid_user_entry` result) but whose `slack_id` is the
truthy non-string 7; the code raises `TypeError` inside `re.match`
instead. -/
theorem claim4_counterexample :
    processEntry failOracle .null 0 (.obj [("slack_id", .num 7), ("room_url", .num 8)]) =
      .error .typeError := rfl

/-- C4 witness: the four branches of the amended theorem at concrete
entries. -/
theorem claim4_witness :
    ((jGet (.obj []) "slack_id").truthy = false ∧
      processEntry failOracle .null 0 (.obj []) = .ok (invalidEntryOutcome .null 0)) ∧
    (reMatchSlackId "x123" = false ∧
      processEntry failOracle .null 0 (.obj [("slack_id", .str "x123"), ("room_url", .str "r")]) =
        .ok (invalidEntryOutcome (.str "x123") 0)) ∧
    (reMatchSlackId "U7" = true ∧ (Json.num 3).isStr = false ∧
      processEntry failOracle .null 0 (.obj [("slack_id", .str "U7"), ("room_url", .num 3)]) =
        .ok (invalidEntryOutcome (.str "U7") 0)) ∧
    ((Json.arr [.num 1]).truthy = true ∧
      processEntry failOracle .null 0 (.obj [("slack_id", .arr [.num 1]), ("room_url", .str "r")]) =
        .error .typeError) :=
  ⟨⟨rfl, (claim4_invalid_user_entry failOracle .null 0 []).1 rfl⟩,
   ⟨rfl, (claim4_invalid_user_entry failOracle .null 0
     [("slack_id", .str "x123"), ("room_url", .str "r")]).2.1 "x123" rfl rfl⟩,
   ⟨rfl, rfl, (claim4_invalid_user_entry failOracle .null 0
     [("slack_id", .str "U7"), ("room_url", .num 3)]).2.2.1 "U7" rfl rfl rfl⟩,
   ⟨rfl, (claim4_invalid_user_entry failOracle .null 0
     [("slack_id", .arr [.num 1]), ("room_url", .str "r")]).2.2.2 rfl rfl⟩⟩

/-! Claim C5. -/

/-- C5: the message text is the custom message when truthy, else the
default message, with a literal fallback when the effective message is
empty or absent. As stated the claim fails twice (see the counterexample:
the fallback in the code spells `you’re` with U+2019 while the claimed
literal uses an ASCII apostrophe, and a falsy non-empty effective message
such as `false` also triggers the fallback). Amended: the text is the
custom message when truthy, else the default message when truthy, else
exactly the code literal with the right single quotation mark; every
falsy effective message (absent, null, empty string, `false`, `0`)
triggers that fallback. -/
theorem claim5_message_text (custom0 dm : Json) :
    messageText custom0 dm =
      (if custom0.truthy then custom0
       else if dm.truthy then dm
       else .str fallbackText) ∧
    ((pyOr custom0 dm).truthy = false → messageText custom0 dm = .str fallbackText) := by
  constructor
  · by_cases h1 : custom0.truthy = true
    · simp [messageText, pyOr, h1]
    · rw [Bool.not_eq_true] at h1
      by_cases h2 : dm.truthy = true
      · simp [messageText, pyOr, h1, h2]
      · rw [Bool.not_eq_true] at h2
        simp [messageText, pyOr, h1, h2]
  · intro h
    have hgen : ∀ a : Json, a.truthy = false →
        pyOr a (.str fallbackText) = .str fallbackText :=
      fun a ha => by simp [pyOr, ha]
    exact hgen _ h

/-- C5 counterexample: with both messages absent the code falls back to
its own literal, which differs from the literal the claim spells out (the
apostrophe character), and with a `false` default the code falls back
although the claimed rule keeps the `false`. -/
theorem claim5_counterexample :
    messageText .null .null ≠ specMessageText .null .null ∧
    messageText .null .null = .str fallbackText ∧
    specMessageText .null .null = .str specFallbackText ∧
    fallbackText ≠ specFallbackText ∧
    messageText .null (.bool false) = .str fallbackText ∧
    specMessageText .null (.bool false) = .bool false := by
  refine ⟨?_, rfl, rfl, by decide, rfl, rfl⟩
  simp [messageText, specMessageText, pyOr, emptyOrAbsent, Json.truthy,
    fallbackText, specFallbackText]

/-- C5 witness: the amended theorem at an empty custom message and a
missing default. -/
theorem claim5_witness :
    (pyOr (.str "") .null).truthy = false ∧
    messageText (.str "") .null = .str fallbackText :=
  ⟨rfl, (claim5_message_text (.str "") .null).2 rfl⟩

/-! Claim C6. -/

/-- An oracle answering every call with an application-level
`user_not_found` failure. -/
def notFoundOracle : Nat → TransportResult :=
  fun _ => .success (some (.obj [("ok", .bool false), ("error", .str "user_not_found")])) [] 200

/-- C6 (confirmed): when the open call of a locally valid entry does not
report success, the loop appends the `open` step failure result with the
upstream error code (or `open_failed` when the body has no error field)
and the `Retry-After` header value (`null` when absent), sleeps the pacing
delay, and makes no send call — the calls list of the outcome is the
single open call. Upstream response bodies are JSON objects, as the
specified upstream interface prescribes. -/
theorem claim6_open_failure (oracle : Nat → TransportResult) (dm : Json)
    (ctr : Nat) (fields ofields : List (String × Json)) (sid url : String)
    (ohdrs : Headers) (ost : Nat)
    (hget : jGet (.obj fields) "slack_id" = .str sid)
    (hm : reMatchSlackId sid = true)
    (hroom : jGet (.obj fields) "room_url" = .str url)
    (hres : slackResponse (oracle ctr) = (.obj ofields, ohdrs, ost))
    (hok : ((lastLookup ofields "ok").getD .null).truthy = false) :
    processEntry oracle dm ctr (.obj fields) = .ok
      { result := .obj [("slack_id", .str sid), ("ok", .bool false),
                        ("step", .str "open"),
                        ("error", (lastLookup ofields "error").getD (.str "open_failed")),
                        ("retry_after", jsonOfRetry (lastLookup ohdrs "Retry-After"))],
        calls := [⟨"conversations.open", .obj [("users", .str sid)]⟩],
        slept := true, next := ctr + 1 } := by
  rw [processEntry_valid oracle dm ctr fields sid url hget hm hroom]
  exact openAndSend_openFail oracle ctr sid url _ ofields ohdrs ost hres hok

/-- C6 witness: the upstream example from the specification — open returns
`ok: false, error: user_not_found` and the result carries that code with a
null `retry_after` and no send call. -/
theorem claim6_witness :
    reMatchSlackId "U123ABC" = true ∧
    ((lastLookup [("ok", Json.bool false), ("error", Json.str "user_not_found")] "ok").getD
      .null).truthy = false ∧
    processEntry notFoundOracle .null 0 validEntry = .ok
      { result := .obj [("slack_id", .str "U123ABC"), ("ok", .bool false),
                        ("step", .str "open"), ("error", .str "user_not_found"),
                        ("retry_after", .null)],
        calls := [⟨"conversations.open", .obj [("users", .str "U123ABC")]⟩],
        slept := true, next := 1 } :=
  ⟨rfl, rfl,
   claim6_open_failure notFoundOracle .null 0
     [("slack_id", .str "U123ABC"), ("room_url", .str "https://rooms.example/1")]
     [("ok", .bool false), ("error", .str "user_not_found")]
     "U123ABC" "https://rooms.example/1" [] 200 rfl rfl rfl rfl rfl⟩

/-! Claim C7. -/

/-- C7: the liveness handler answers any method and any path with 200 and
the pong body. As stated the claim fails (see the counterexample: the only
registered route is `@app.get("/")`, so a POST is answered 405 by the
framework). Amended: a GET on `/` gets 200 with the pong body — the view
function itself is a constant with no validation or failure modes — while
non-GET methods on `/` (other than the framework-handled HEAD and
OPTIONS) get 405 and other paths get 404 from routing. -/
theorem claim7_ping_contract :
    pingApp "GET" "/" = (200, some (.obj [("ok", .bool true), ("pong", .bool true)])) ∧
    ping = (200, .obj [("ok", .bool true), ("pong", .bool true)]) ∧
    (∀ m : String, m ≠ "GET" → m ≠ "HEAD" → m ≠ "OPTIONS" →
      pingApp m "/" = (405, none)) ∧
    (∀ m p : String, p ≠ "/" → pingApp m p = (404, none)) := by
  refine ⟨rfl, rfl, ?_, ?_⟩
  · intro m h1 h2 h3
    simp [pingApp, h1, h2, h3]
  · intro m p h
    simp [pingApp, h]

/-- C7 counterexample: a POST to the app is answered 405, not the claimed
200 pong body. -/
theorem claim7_counterexample :
    pingApp "POST" "/" = (405, none) ∧ (405 : Nat) ≠ 200 :=
  ⟨rfl, by decide⟩

/-- C7 witness: the amended theorem at a PUT on `/` and a GET on another
path. -/
theorem claim7_witness :
    ("PUT" : String) ≠ "GET" ∧ pingApp "PUT" "/" = (405, none) ∧
    ("/health" : String) ≠ "/" ∧ pingApp "GET" "/health" = (404, none) :=
  ⟨by decide, claim7_ping_contract.2.2.1 "PUT" (by decide) (by decide) (by decide),
   by decide, claim7_ping_contract.2.2.2 "GET" "/health" (by decide)⟩

/-! Claim C8. -/

/-- C8: a missing or non-object entry is treated as an entry with all
fields absent and so yields `invalid_user_entry`. As stated the claim
fails (see the counterexample: `(u or {})` only replaces falsy entries, so
a truthy non-object entry raises `AttributeError` at `.get`). Amended: a
falsy entry (null, false, 0, empty string, empty array, empty object) is
treated as all-fields-absent and yields the `invalid_user_entry` result
with a null `slack_id`, while a truthy non-object entry raises
`AttributeError` uncaught. -/
theorem claim8_missing_entry (oracle : Nat → TransportResult) (dm : Json)
    (ctr : Nat) (u : Json) :
    (u.truthy = false →
      processEntry oracle dm ctr u = .ok (invalidEntryOutcome .null ctr)) ∧
    (u.truthy = true → u.isObj = false →
      processEntry oracle dm ctr u = .error .attributeError) :=
  ⟨processEntry_falsy oracle dm ctr u, processEntry_nonObj oracle dm ctr u⟩

/-- C8 counterexample: the non-object entry `"zzz"` is not treated as an
entry with absent fields — the loop raises `AttributeError` instead of
appending an `invalid_user_entry` result. -/
theorem claim8_counterexample :
    processEntry failOracle .null 0 (.str "zzz") = .error .attributeError := rfl

/-- C8 witness: the amended theorem at a null entry and at a truthy
numeric entry. -/
theorem claim8_witness :
    (Json.null.truthy = false ∧
      processEntry failOracle .null 0 .null = .ok (invalidEntryOutcome .null 0)) ∧
    ((Json.num 1).truthy = true ∧ (Json.num 1).isObj = false ∧
      processEntry failOracle .null 0 (.num 1) = .error .attributeError) :=
  ⟨⟨rfl, (claim8_missing_entry failOracle .null 0 .null).1 rfl⟩,
   ⟨rfl, rfl, (claim8_missing_entry failOracle .null 0 (.num 1)).2 rfl rfl⟩⟩

/-! Claim C9. -/

/-- C9 (confirmed): a transport-level failure of kind `k` makes `_slack`
return the body `{"ok": false, "error": "request_failed:k"}` with no
headers and status 0; that body is treated as unsuccessful, and an entry
whose open call fails this way gets an `open` step result with exactly
that error code and a null `retry_after`. -/
theorem claim9_transport_failure :
    (∀ kind : String, slackResponse (.exc kind) =
      (.obj [("ok", .bool false), ("error", .str ("request_failed:" ++ kind))], [], 0)) ∧
    (∀ kind : String, (jGet (slackResponse (.exc kind)).1 "ok").truthy = false) ∧
    (∀ (oracle : Nat → TransportResult) (dm : Json) (ctr : Nat)
        (fields : List (String × Json)) (sid url kind : String),
      jGet (.obj fields) "slack_id" = .str sid → reMatchSlackId sid = true →
      jGet (.obj fields) "room_url" = .str url → oracle ctr = .exc kind →
      processEntry oracle dm ctr (.obj fields) = .ok
        { result := .obj [("slack_id", .str sid), ("ok", .bool false),
                          ("step", .str "open"),
                          ("error", .str ("request_failed:" ++ kind)),
                          ("retry_after", .null)],
          calls := [⟨"conversations.open", .obj [("users", .str sid)]⟩],
          slept := true, next := ctr + 1 }) := by
  refine ⟨fun kind => rfl, fun kind => rfl, ?_⟩
  intro oracle dm ctr fields sid url kind hget hm hroom hexc
  rw [processEntry_valid oracle dm ctr fields sid url hget hm hroom]
  have hres : slackResponse (oracle ctr) =
      (.obj [("ok", .bool false), ("error", .str ("request_failed:" ++ kind))],
        ([] : Headers), 0) := by
    rw [hexc]
    rfl
  exact openAndSend_openFail oracle ctr sid url _ _ _ _ hres rfl

/-- C9 witness: the per-item conjunct at a concrete transport failure of
kind `URLError`. -/
theorem claim9_witness :
    failOracle 0 = .exc "URLError" ∧ reMatchSlackId "U42" = true ∧
    processEntry failOracle .null 0
      (.obj [("slack_id", .str "U42"), ("room_url", .str "r")]) = .ok
      { result := .obj [("slack_id", .str "U42"), ("ok", .bool false),
                        ("step", .str "open"),
                        ("error", .str "request_failed:URLError"),
                        ("retry_after", .null)],
        calls := [⟨"conversations.open", .obj [("users", .str "U42")]⟩],
        slept := true, next := 1 } :=
  ⟨rfl, rfl,
   claim9_transport_failure.2.2 failOracle .null 0
     [("slack_id", .str "U42"), ("room_url", .str "r")] "U42" "r" "URLError"
     rfl rfl rfl rfl⟩

/-! Claim C10. -/

/-- An oracle whose responses report `ok` but omit the channel object. -/
def noChannelOracle : Nat → TransportResult :=
  fun _ => .success (some (.obj [("ok", .bool true)])) [] 200

/-- An oracle whose open response is complete but whose send response
reports `ok` without a `ts`. -/
def noTsOracle : Nat → TransportResult :=
  fun n =>
    if n = 0 then
      .success (some (.obj [("ok", .bool true), ("channel", .obj [("id", .str "C1")])])) [] 200
    else .success (some (.obj [("ok", .bool true)])) [] 200

/-- C10 (confirmed): the success path reads `open_json["channel"]["id"]`
and `send_json["ts"]` unguarded, so an upstream response that reports ok
but omits the channel object, its id, or the ts makes the loop raise an
uncaught exception instead of producing a UserResult, and the handler does
not return the promised 200 response for such a batch. -/
theorem claim10_unguarded_success_path :
    (∀ (oracle : Nat → TransportResult) (dm : Json) (ctr : Nat)
        (fields ofields : List (String × Json)) (sid url : String)
        (ohdrs : Headers) (ost : Nat),
      jGet (.obj fields) "slack_id" = .str sid → reMatchSlackId sid = true →
      jGet (.obj fields) "room_url" = .str url →
      slackResponse (oracle ctr) = (.obj ofields, ohdrs, ost) →
      ((lastLookup ofields "ok").getD .null).truthy = true →
      hasKey (jGet (.obj ofields) "channel") "id" = false →
      ∃ e, processEntry oracle dm ctr (.obj fields) = .error e) ∧
    (∀ (oracle : Nat → TransportResult) (dm : Json) (ctr : Nat)
        (fields ofields cfields sfields : List (String × Json)) (sid url : String)
        (ohdrs shdrs : Headers) (ost sst : Nat) (channel : Json),
      jGet (.obj fields) "slack_id" = .str sid → reMatchSlackId sid = true →
      jGet (.obj fields) "room_url" = .str url →
      slackResponse (oracle ctr) = (.obj ofields, ohdrs, ost) →
      ((lastLookup ofields "ok").getD .null).truthy = true →
      lastLookup ofields "channel" = some (.obj cfields) →
      lastLookup cfields "id" = some channel →
      slackResponse (oracle (ctr + 1)) = (.obj sfields, shdrs, sst) →
      ((lastLookup sfields "ok").getD .null).truthy = true →
      lastLookup sfields "ts" = none →
      processEntry oracle dm ctr (.obj fields) = .error (.keyError "ts")) ∧
    (∀ (token : String) (oracle : Nat → TransportResult) (req : Request)
        (bfields fields ofields : List (String × Json)) (rest : List Json)
        (sid url : String) (ohdrs : Headers) (ost : Nat),
      req.method = "POST" →
      (token = "" ∨ (lastLookup req.headers "authorization").getD "" = "Bearer " ++ token) →
      req.getJson = some (.obj bfields) →
      lastLookup bfields "users" = some (.arr (.obj fields :: rest)) →
      jGet (.obj fields) "slack_id" = .str sid → reMatchSlackId sid = true →
      jGet (.obj fields) "room_url" = .str url →
      slackResponse (oracle 0) = (.obj ofields, ohdrs, ost) →
      ((lastLookup ofields "ok").getD .null).truthy = true →
      hasKey (jGet (.obj ofields) "channel") "id" = false →
      ∃ e, handler token oracle req = .error e) := by
  have hA : ∀ (oracle : Nat → TransportResult) (dm : Json) (ctr : Nat)
      (fields ofields : List (String × Json)) (sid url : String)
      (ohdrs : Headers) (ost : Nat),
      jGet (.obj fields) "slack_id" = .str sid → reMatchSlackId sid = true →
      jGet (.obj fields) "room_url" = .str url →
      slackResponse (oracle ctr) = (.obj ofields, ohdrs, ost) →
      ((lastLookup ofields "ok").getD .null).truthy = true →
      hasKey (jGet (.obj ofields) "channel") "id" = false →
      ∃ e, processEntry oracle dm ctr (.obj fields) = .error e := by
    intro oracle dm ctr fields ofields sid url ohdrs ost hget hm hroom hres hok hch
    rw [processEntry_valid oracle dm ctr fields sid url hget hm hroom]
    exact openAndSend_channelCrash oracle ctr sid url _ ofields ohdrs ost hres hok hch
  refine ⟨hA, ?_, ?_⟩
  · intro oracle dm ctr fields ofields cfields sfields sid url ohdrs shdrs ost sst channel
      hget hm hroom hres hok hc hid hres2 hok2 hts
    rw [processEntry_valid oracle dm ctr fields sid url hget hm hroom]
    exact openAndSend_tsCrash oracle ctr sid url _ ofields ohdrs ost cfields channel
      sfields shdrs sst hres hok hc hid hres2 hok2 hts
  · intro token oracle req bfields fields ofields rest sid url ohdrs ost
      hm ha hb husers hget hmm hroom hres hok hch
    obtain ⟨e, he⟩ := hA oracle ((lastLookup bfields "default_message").getD .null) 0
      fields ofields sid url ohdrs ost hget hmm hroom hres hok hch
    refine ⟨e, ?_⟩
    have hauth : ¬(token ≠ "" ∧
        (lastLookup req.headers "authorization").getD "" ≠ "Bearer " ++ token) := by
      rcases ha with h | h
      · exact fun hc => hc.1 h
      · exact fun hc => hc.2 h
    unfold handler
    rw [if_neg (by rw [hm]; simp), if_neg hauth, hb]
    simp only [Json.pyGet, husers, Option.getD_some, exceptBind_ok]
    rw [if_neg (by simp)]
    simp [processUsers, he]

/-- C10 witness: the three conjuncts at concrete malformed upstream
responses — an ok open body with no channel, an ok send body with no ts,
and a whole batch crashing instead of returning 200. -/
theorem claim10_witness :
    (hasKey (jGet (.obj [("ok", Json.bool true)]) "channel") "id" = false ∧
      ∃ e, processEntry noChannelOracle .null 0 validEntry = .error e) ∧
    (lastLookup [("ok", Json.bool true)] "ts" = none ∧
      processEntry noTsOracle .null 0 validEntry = .error (.keyError "ts")) ∧
    (∃ e, handler "" noChannelOracle
      ⟨"POST", [], some (.obj [("users", .arr [validEntry])])⟩ = .error e) :=
  ⟨⟨rfl, claim10_unguarded_success_path.1 noChannelOracle .null 0
      [("slack_id", .str "U123ABC"), ("room_url", .str "https://rooms.example/1")]
      [("ok", .bool true)] "U123ABC" "https://rooms.example/1" [] 200
      rfl rfl rfl rfl rfl rfl⟩,
   ⟨rfl, claim10_unguarded_success_path.2.1 noTsOracle .null 0
      [("slack_id", .str "U123ABC"), ("room_url", .str "https://rooms.example/1")]
      [("ok", .bool true), ("channel", .obj [("id", .str "C1")])]
      [("id", .str "C1")] [("ok", .bool true)]
      "U123ABC" "https://rooms.example/1" [] [] 200 200 (.str "C1")
      rfl rfl rfl rfl rfl rfl rfl rfl rfl rfl⟩,
   claim10_unguarded_success_path.2.2 "" noChannelOracle
      ⟨"POST", [], some (.obj [("users", .arr [validEntry])])⟩
      [("users", .arr [validEntry])]
      [("slack_id", .str "U123ABC"), ("room_url", .str "https://rooms.example/1")]
      [("ok", .bool true)] [] "U123ABC" "https://rooms.example/1" [] 200
      rfl (Or.inl rfl) rfl rfl rfl rfl rfl rfl rfl rfl⟩

end SlackDM
